import Mathlib

/-!
Shallow embedding of `src/server.py` (module `server`), the request ingestion
core of a small asyncio HTTP/1.1 origin server, together with theorems that
settle the specification claims against it.

Bytes are modelled as `Nat` (0..255); byte strings as `List Nat`.  The asyncio
stream reader is modelled by the unconsumed input `List Nat`; the stream writer
by a `Wr` record accumulating the wire bytes and the closed flag.  Python
exceptions that escape the connection task uncaught are modelled by the
`PyExc` component of the final `ConnResult`.
-/

namespace Server

/-- Encoding of an ASCII Lean string as Python bytes (used for the `b'...'`
byte-string literals of the source, all of which are ASCII). -/
def ascii (s : String) : List Nat := s.data.map Char.toNat

/-- UTF-8 encoding of one Unicode code point, as Python `str.encode()` does. -/
def utf8Char (c : Nat) : List Nat :=
  if c < 0x80 then [c]
  else if c < 0x800 then [0xC0 + c / 64, 0x80 + c % 64]
  else if c < 0x10000 then [0xE0 + c / 4096, 0x80 + (c / 64) % 64, 0x80 + c % 64]
  else [0xF0 + c / 262144, 0x80 + (c / 4096) % 64, 0x80 + (c / 64) % 64, 0x80 + c % 64]

/-- Python `str.encode()`: UTF-8 encoding of a string. -/
def pyEncode (s : String) : List Nat := s.data.flatMap (fun c => utf8Char c.toNat)

/-- Python `str(n)` for a non-negative integer: decimal digits, helper.
The first argument is fuel; any fuel at least `n` yields all digits of `n`. -/
def natReprAux : Nat → Nat → List Nat → List Nat
  | _, 0, acc => acc
  | 0, _ + 1, acc => acc
  | f + 1, n + 1, acc => natReprAux f ((n + 1) / 10) ((48 + (n + 1) % 10) :: acc)

/-- Python `str(n)` for a non-negative integer: decimal digit bytes. -/
def natRepr (n : Nat) : List Nat := if n = 0 then [48] else natReprAux n n []

/-- ASCII whitespace stripped by Python `bytes.strip()`: space, tab, LF, CR,
vertical tab, form feed. -/
def isPySpace (b : Nat) : Bool :=
  b = 32 || b = 9 || b = 10 || b = 13 || b = 11 || b = 12

/-- Python `bytes.strip()`. -/
def pyStrip (s : List Nat) : List Nat :=
  ((s.dropWhile isPySpace).reverse.dropWhile isPySpace).reverse

/-- ASCII decimal digit. -/
def isDigit (b : Nat) : Bool := 48 ≤ b && b ≤ 57

/-- Helper for `int()`: digits with single underscores allowed between digits,
accumulating the value. -/
def digitsParseAux : List Nat → Nat → Option Nat
  | [], acc => some acc
  | b :: rest, acc =>
    if isDigit b then digitsParseAux rest (acc * 10 + (b - 48))
    else if b = 95 then
      match rest with
      | c :: _ => if isDigit c then digitsParseAux rest acc else none
      | [] => none
    else none

/-- Helper for `int()`: a non-empty digit sequence (leading digit required). -/
def digitsParse : List Nat → Option Nat
  | [] => none
  | b :: rest => if isDigit b then digitsParseAux rest (b - 48) else none

/-- Python `int(bs)` on a byte string: strips ASCII whitespace, optional sign,
then decimal digits with underscores permitted between digits; `none` models a
`ValueError`. -/
def pyInt (s : List Nat) : Option Int :=
  match pyStrip s with
  | 43 :: r => (digitsParse r).map Int.ofNat
  | 45 :: r => (digitsParse r).map (fun n => -(Int.ofNat n : Int))
  | r => (digitsParse r).map Int.ofNat

/-- Index of the first occurrence of `sep` in a byte string, as used by
`bytes.find` / the asyncio `readuntil` separator scan. -/
def findSubIdx (sep : List Nat) : List Nat → Option Nat
  | [] => if sep.isEmpty then some 0 else none
  | b :: rest =>
    if sep.isPrefixOf (b :: rest) then some 0
    else (findSubIdx sep rest).map (· + 1)

/-- Python `bytes.split(b'\r\n')` helper carrying the current piece reversed:
the leftmost CRLF ends a piece, any other byte is accumulated. -/
def splitCRLFAux : List Nat → List Nat → List (List Nat)
  | [], acc => [acc.reverse]
  | [b], acc => [(b :: acc).reverse]
  | b :: c :: rest, acc =>
    if b = 13 ∧ c = 10 then acc.reverse :: splitCRLFAux rest []
    else splitCRLFAux (c :: rest) (b :: acc)

/-- Python `bytes.split(b'\r\n')`: split on every CRLF, keeping empty pieces. -/
def splitCRLF (s : List Nat) : List (List Nat) := splitCRLFAux s []

/-! ### Character classes of the source's regexes

In a Python bytes regex, `\w` is `[a-zA-Z0-9_]` and `\d` is `[0-9]`. -/

/-- Python bytes-regex `\w`. -/
def isWordB (b : Nat) : Bool :=
  (48 ≤ b && b ≤ 57) || (65 ≤ b && b ≤ 90) || (97 ≤ b && b ≤ 122) || b = 95

/-- The character class of the source's method regex
`[\w!#$%&'*+.^_\x60|~-]` and of `HEADER_FIELDS_TCHAR`, which denote the same
byte set (`\w` subsumes `\d` and `_`). -/
def isTchar (b : Nat) : Bool :=
  isWordB b || b = 33 || b = 35 || b = 36 || b = 37 || b = 38 || b = 39 ||
    b = 42 || b = 43 || b = 45 || b = 46 || b = 94 || b = 96 || b = 124 || b = 126

/-- Source line 137: `re.fullmatch(rb'[\w!#$%&'*+.^_\x60|~-]+', method)`. -/
def methodTokenOk (m : List Nat) : Bool := !m.isEmpty && m.all isTchar

/-- Source line 125: `re.fullmatch(rb'HTTP/\d(\.\d)?', http_version)`. -/
def versionSyntaxOk (v : List Nat) : Bool :=
  match v with
  | [72, 84, 84, 80, 47, d] => isDigit d
  | [72, 84, 84, 80, 47, d, 46, e] => isDigit d && isDigit e
  | _ => false

/-- Source line 153: `re.fullmatch(rb'^/[\w/]*\??[\w=&]*$', request_target)`.
The greedy left-to-right scan is equivalent to the regex with backtracking
because the optional `?` occurs in neither bracket class. -/
def targetOk (t : List Nat) : Bool :=
  match t with
  | 47 :: rest =>
    let afterRun := rest.dropWhile (fun b => isWordB b || b = 47)
    let afterQ := match afterRun with
      | 63 :: r => r
      | r => r
    afterQ.all (fun b => isWordB b || b = 61 || b = 38)
  | _ => false

/-- Source lines 158-159: `urlparse(request_target).path`.  Because `targetOk`
admits neither `:` nor `#` nor `;`, `urlparse` can produce only a netloc (when
the target starts with `//`), a path, and a query (after the first `?`). -/
def urlparsePath (t : List Nat) : List Nat :=
  if t.take 2 = [47, 47] then
    let afterSlashes := t.drop 2
    let netlocLen := (afterSlashes.takeWhile (fun b => b ≠ 47 && b ≠ 63)).length
    (afterSlashes.drop netlocLen).takeWhile (fun b => b ≠ 63)
  else t.takeWhile (fun b => b ≠ 63)

/-- Source line 187: `re.match(rb'([tchar]+)[:](.*)', field_line)`.  `re.match`
anchors only at the start; `(.*)` stops at the first LF and any remainder of
the line is silently ignored.  Greedy matching of `tchar+` is exact because
`:` is not a tchar. -/
def headerLineMatch (line : List Nat) : Option (List Nat × List Nat) :=
  let name := line.takeWhile isTchar
  let rest := line.dropWhile isTchar
  if name.isEmpty then none
  else
    match rest with
    | 58 :: r => some (name, r.takeWhile (fun b => b ≠ 10))
    | _ => none

/-- Python `bytes.lower()` on one byte. -/
def byteLower (b : Nat) : Nat := if 65 ≤ b && b ≤ 90 then b + 32 else b

/-- Python `bytes.lower()`. -/
def bytesLower (s : List Nat) : List Nat := s.map byteLower

/-! ### The `header_fields` dict

An insertion-ordered association list from lowercased field names to the pair
(raw field name, field value), like the Python dict at source line 167. -/

abbrev HeaderDict := List (List Nat × (List Nat × List Nat))

/-- Python `key in dict`. -/
def dictHasKey (d : HeaderDict) (k : List Nat) : Bool := d.any (fun p => p.1 = k)

/-- Python `dict[key]`, `none` modelling a `KeyError`. -/
def dictGet (d : HeaderDict) (k : List Nat) : Option (List Nat × List Nat) :=
  (d.find? (fun p => p.1 = k)).map (·.2)

/-- Python `dict[key] = v`: replace in place if the key exists, else append. -/
def dictSet (d : HeaderDict) (k : List Nat) (v : List Nat × List Nat) : HeaderDict :=
  if d.any (fun p => p.1 = k) then
    d.map (fun p => if p.1 = k then (k, v) else p)
  else d ++ [(k, v)]

/-- Failure modes of the header-field loop at source lines 178-199. -/
inductive HdrErr
  /-- The field-line regex returned `None` and `None.groups()` raised
  `AttributeError` (uncaught: the surrounding `except` catches only
  `ValueError`). -/
  | attrError
  /-- The duplicate-name check fired and `bad_request` ran. -/
  | dup
deriving DecidableEq

/-- Source lines 178-199: the header-field loop.  Each line is stripped,
matched against the field regex, checked for duplication — comparing the raw
(unlowercased) name against the stored lowercased keys — and stored under its
lowercased name.  The `except ValueError` arm of the source is dead code:
`match.groups()` always unpacks into two names. -/
def parseHeaderLines : List (List Nat) → HeaderDict → Except HdrErr HeaderDict
  | [], hf => .ok hf
  | line :: rest, hf =>
    if line = [] then .ok hf
    else
      match headerLineMatch (pyStrip line) with
      | none => .error .attrError
      | some (fieldName, rawValue) =>
        let fieldValue := pyStrip rawValue
        if dictHasKey hf fieldName then .error .dup
        else parseHeaderLines rest (dictSet hf (bytesLower fieldName) (fieldName, fieldValue))

/-! ### Routes and handlers

`start_server` compiles each route-DSL string through `route_dsl_to_regex`,
which replaces every `<name>` with the named capture group `(?P<name>[^/]+)`
and leaves the other characters literal.  A compiled pattern is therefore an
alternation-free concatenation of literal pieces and `[^/]+` captures, which
we represent structurally.  `router` (source lines 69-76) scans the insertion
order and takes the first `re.fullmatch`. -/

inductive RoutePiece
  /-- A literal stretch of the compiled pattern. -/
  | lit (s : List Nat)
  /-- A `(?P<name>[^/]+)` capture group produced from `<name>` in the DSL. -/
  | cap (name : String)

abbrev RoutePattern := List RoutePiece

abbrev Captures := List (String × List Nat)

/-- Matching a `[^/]+` capture: try candidate lengths greedily (longest
first), as the regex engine does, handing the remainder to `next`. -/
def capTry (next : List Nat → Option Captures) (nm : String) (s : List Nat) :
    Nat → Option Captures
  | 0 => none
  | k + 1 =>
    let piece := s.take (k + 1)
    if piece.all (fun b => b ≠ 47) then
      match next (s.drop (k + 1)) with
      | some caps => some ((nm, piece) :: caps)
      | none => capTry next nm s k
    else capTry next nm s k

/-- `re.fullmatch` of a compiled route pattern against a path, with the
captured parameters. -/
def patMatch : RoutePattern → List Nat → Option Captures
  | [], s => if s.isEmpty then some [] else none
  | .lit l :: ps, s =>
    if l.isPrefixOf s then patMatch ps (s.drop l.length) else none
  | .cap nm :: ps, s => capTry (fun r => patMatch ps r) nm s s.length

/-- The value a Python handler coroutine returns. -/
inductive PyVal
  /-- A `str`. -/
  | pstr (s : String)
  /-- A `dict` (or other mapping). -/
  | pdict
  /-- Any other object. -/
  | pother
deriving DecidableEq

/-- A user handler, already a function of its captured path parameters:
`partial(func, **kwargs)` applied.  `.error ()` models the handler raising. -/
abbrev Handler := Captures → Except Unit PyVal

/-- Source lines 69-76: first-hit scan over the compiled routes; the returned
value is the bound `partial(func, **match.groupdict())` — since awaiting it is
the only thing ever done with it, we record the eventual outcome.  `none`
models the `ValueError` raised on a miss. -/
def router (routes : List (RoutePattern × Handler)) (path : List Nat) :
    Option (Except Unit PyVal) :=
  match routes with
  | [] => none
  | (pat, f) :: rest =>
    match patMatch pat path with
    | some caps => some (f caps)
    | none => router rest path

/-! ### Writer, constants, and the response encoders -/

/-- The asyncio `StreamWriter`: accumulated wire bytes and the closed flag. -/
structure Wr where
  wire : List Nat
  closed : Bool
deriving DecidableEq

def wWrite (w : Wr) (bs : List Nat) : Wr := { w with wire := w.wire ++ bs }

def wClose (w : Wr) : Wr := { w with closed := true }

/-- Source line 35. -/
def HTTP_METHODS_MUST : List (List Nat) := [ascii "GET", ascii "HEAD"]

/-- Source line 36. -/
def HTTP_METHODS_OPTIONAL : List (List Nat) :=
  [ascii "POST", ascii "PUT", ascii "DELETE", ascii "PATCH",
   ascii "CONNECT", ascii "OPTIONS", ascii "TRACE"]

/-- Source line 37. -/
def HTTP_METHODS_ALLOWED : List (List Nat) := HTTP_METHODS_MUST ++ HTTP_METHODS_OPTIONAL

/-- Source line 38: note that OPTIONS and TRACE count as safe. -/
def HTTP_METHOD_SAFE : List (List Nat) :=
  HTTP_METHODS_MUST ++ [ascii "OPTIONS", ascii "TRACE"]

/-- Source line 39. -/
def HTTP_METHODS_IMPLEMENTED : List (List Nat) :=
  HTTP_METHODS_ALLOWED.filter
    (fun m => !(m = ascii "CONNECT" || m = ascii "OPTIONS" || m = ascii "TRACE"))

/-- Source line 41. -/
def HTTP_VERSIONS_ALLOWED : List (List Nat) :=
  [ascii "HTTP/1.0", ascii "HTTP/1.1", ascii "HTTP/1"]

/-- Source line 43: 1 MiB. -/
def CONTENT_LENGTH_MAX : Nat := 2 ^ 20

/-- Source line 45. -/
def CONTENT_TYPE_ALLOWED : List (List Nat) := [ascii "text/html", ascii "application/json"]

/-- Python exceptions that terminate the connection task. -/
inductive PyExc
  /-- `start_line[:-2]` after the guarded `readuntil` failed: the local was
  never assigned, so slicing raises `UnboundLocalError` (source line 112),
  or `content_length` used while unassigned. -/
  | unboundLocalError
  /-- `IncompleteReadError` / `LimitOverrunError` from an unguarded stream
  read. -/
  | streamReadError
  /-- `None.groups()` on a field line the header regex rejects (line 187). -/
  | attributeErrorHeader
  /-- `header_fields[b"Content-Length"]` inside the `except ValueError` arm
  (line 224): the dict key is lowercased, so this raises `KeyError` before
  `bad_request` can run. -/
  | keyErrorContentLength
  /-- `readexactly(n)` with `n < 0` raises `ValueError` (line 243). -/
  | valueErrorReadexactly
  /-- The user handler raised (line 249: the call is not guarded). -/
  | handlerError
  /-- `body.encode()` on a non-`str` return value (line 264). -/
  | attributeErrorEncode
  /-- `writer.write` handed a `str` instead of bytes (line 258). -/
  | typeErrorStrWrite
deriving DecidableEq

/-- Final state of one invocation of `request_handler` on a connection. -/
structure ConnResult where
  /-- Bytes written to the socket. -/
  wire : List Nat
  /-- Whether `writer.close()` was called. -/
  closed : Bool
  /-- An exception that escaped the task, if any. -/
  exc : Option PyExc
  /-- The suffix of the input stream never consumed. -/
  rest : List Nat
deriving DecidableEq

/-- Status line bytes as built by the f-strings of source lines 256 and 265. -/
def statusLineBytes (code : Nat) (text : String) : List Nat :=
  pyEncode "HTTP/1.1 " ++ natRepr code ++ pyEncode (" " ++ text ++ "\r\n")

/-- One `f'{name}: {value}\r\n'.encode()` header line (source line 269). -/
def headerLineBytes (h : String × String) : List Nat :=
  pyEncode (h.1 ++ ": " ++ h.2 ++ "\r\n")

/-- Source lines 255-261, `response_single_line`: status line, the header
loop, a blank line, drain, close.  Every call site passes `headers = []`; a
non-empty list would hand `writer.write` a `str` and raise `TypeError` at the
first header. -/
def response_single_line (w : Wr) (code : Nat) (text : String)
    (headers : List (String × String)) : Wr × Option PyExc :=
  let w1 := wWrite w (statusLineBytes code text)
  match headers with
  | [] => (wClose (wWrite w1 (pyEncode "\r\n")), none)
  | _ :: _ => (w1, some PyExc.typeErrorStrWrite)

/-- Source lines 82-91, the inner `bad_request`: a single-line 400 response
followed by a second (idempotent) `writer.close()`. -/
def bad_request (w : Wr) : Wr :=
  wClose (response_single_line w 400 "Bad Request" []).1

/-- Source lines 263-276, `response`: `body.encode()` (an `AttributeError`
for any non-`str`, before anything is written), the status line, the passed
headers plus an appended `Content-Length` measured from the encoded body, a
blank line, the body, drain, close. -/
def response (w : Wr) (code : Nat) (text : String)
    (headers : List (String × String)) (body : PyVal) : Wr × Option PyExc :=
  match body with
  | .pstr s =>
    let bodyBytes := pyEncode s
    let w1 := wWrite w (statusLineBytes code text)
    let w2 := (headers.map headerLineBytes).foldl wWrite w1
    let w3 := wWrite w2 (pyEncode "Content-Length: " ++ natRepr bodyBytes.length ++ pyEncode "\r\n")
    (wClose (wWrite (wWrite w3 (pyEncode "\r\n")) bodyBytes), none)
  | _ => (w, some PyExc.attributeErrorEncode)

/-! ### The connection driver `request_handler` (source lines 80-251)

The driver is transcribed phase by phase in source order; each phase receives
the writer state and the unconsumed stream and produces the `ConnResult`. -/

/-- The default `limit` of `asyncio.start_server`: 64 KiB.  `readuntil` raises
`LimitOverrunError` when the separator sits beyond it. -/
def STREAM_LIMIT : Nat := 2 ^ 16

/-- asyncio `StreamReader.readuntil`: the consumed prefix (separator included)
and the remainder; `none` models `IncompleteReadError` (separator absent) or
`LimitOverrunError` (separator beyond the limit). -/
def readuntilL (sep : List Nat) (s : List Nat) : Option (List Nat × List Nat) :=
  match findSubIdx sep s with
  | some i =>
    if i ≤ STREAM_LIMIT then some (s.take (i + sep.length), s.drop (i + sep.length))
    else none
  | none => none

/-- A completed single-line response (505, 501, 404, 411 branches). -/
def singleLineResult (w : Wr) (code : Nat) (text : String) (stream : List Nat) : ConnResult :=
  let p := response_single_line w code text []
  ⟨p.1.wire, p.1.closed, p.2, stream⟩

/-- A completed `await bad_request(...)` followed by `return 0`. -/
def badRequestResult (w : Wr) (stream : List Nat) : ConnResult :=
  let w2 := bad_request w
  ⟨w2.wire, w2.closed, none, stream⟩

/-- Source line 248: `route_func not in special_routes` tests membership among
the dict keys, which are the `int` status codes, while `route_func` is a
`functools.partial` object; an `int` never equals a partial, so the test is
true for every key and the branch is always taken. -/
def routeFuncInSpecialRoutes (special_routes : List (Int × Handler)) : Bool :=
  special_routes.any (fun _ => false)

/-- Source lines 247-251: the dispatch.  If the (always-false) special-route
membership held, `request_handler` would fall off the end with nothing
written; otherwise the handler coroutine is awaited — unguarded, so a raise
escapes the task — and its value is rendered by `response` with status
`200 OK` and a fixed `Content-Type: text/html` header. -/
def dispatch (w : Wr) (route_func : Except Unit PyVal) (stream : List Nat)
    (special_routes : List (Int × Handler)) : ConnResult :=
  if routeFuncInSpecialRoutes special_routes then ⟨w.wire, w.closed, none, stream⟩
  else
    match route_func with
    | .error () => ⟨w.wire, w.closed, some PyExc.handlerError, stream⟩
    | .ok body =>
      let p := response w 200 "OK" [("Content-Type", "text/html")] body
      ⟨p.1.wire, p.1.closed, p.2, stream⟩

/-- Source lines 241-244: for a non-safe method, `readexactly(content_length)`
consumes the body (a negative count raises `ValueError`, a short stream
`IncompleteReadError`); safe methods skip the read.  `content_length  = none`
models the local never having been assigned. -/
def readBodyAndDispatch (w : Wr) (method : List Nat) (route_func : Except Unit PyVal)
    (content_length : Option Int) (stream : List Nat)
    (special_routes : List (Int × Handler)) : ConnResult :=
  if HTTP_METHOD_SAFE.contains method then dispatch w route_func stream special_routes
  else
    match content_length with
    | none => ⟨w.wire, w.closed, some PyExc.unboundLocalError, stream⟩
    | some n =>
      if n < 0 then ⟨w.wire, w.closed, some PyExc.valueErrorReadexactly, stream⟩
      else if (stream.length : Int) < n then ⟨w.wire, w.closed, some PyExc.streamReadError, []⟩
      else dispatch w route_func (stream.drop n.toNat) special_routes

/-- Source lines 228-239: the content-type checks.  A safe method with a
content-type, a value outside `CONTENT_TYPE_ALLOWED`, and a non-safe method
without a content-type are each a 400. -/
def contentTypeSection (w : Wr) (method : List Nat) (route_func : Except Unit PyVal)
    (hf : HeaderDict) (content_length : Option Int) (stream : List Nat)
    (special_routes : List (Int × Handler)) : ConnResult :=
  match dictGet hf (ascii "content-type") with
  | some ct =>
    if HTTP_METHOD_SAFE.contains method then badRequestResult w stream
    else if !CONTENT_TYPE_ALLOWED.contains ct.2 then badRequestResult w stream
    else readBodyAndDispatch w method route_func content_length stream special_routes
  | none =>
    if !HTTP_METHOD_SAFE.contains method then badRequestResult w stream
    else readBodyAndDispatch w method route_func content_length stream special_routes

/-- Source lines 205-225: the content-length block.  `int(...)` runs first; a
`ValueError` there reaches an `except` arm whose f-string indexes the dict
with the non-lowercased key `b"Content-Length"` and dies with `KeyError`.
With a parsed value, any safe method is a 400 (whatever the value, zero
included), then values above `CONTENT_LENGTH_MAX` are a 400.  A missing
header on a non-safe method is `411 Length Required`. -/
def contentLengthSection (w : Wr) (method : List Nat) (route_func : Except Unit PyVal)
    (hf : HeaderDict) (stream : List Nat)
    (special_routes : List (Int × Handler)) : ConnResult :=
  match dictGet hf (ascii "content-length") with
  | none =>
    if !HTTP_METHOD_SAFE.contains method then
      singleLineResult w 411 "Length Required" stream
    else contentTypeSection w method route_func hf none stream special_routes
  | some cl =>
    match pyInt cl.2 with
    | none => ⟨w.wire, w.closed, some PyExc.keyErrorContentLength, stream⟩
    | some n =>
      if HTTP_METHOD_SAFE.contains method then badRequestResult w stream
      else if n > (CONTENT_LENGTH_MAX : Int) then badRequestResult w stream
      else contentTypeSection w method route_func hf (some n) stream special_routes

/-- Source lines 177-199: read the header block up to the blank line (an
unguarded `readuntil`, so a missing terminator kills the task), parse the
field lines, then continue with the framing checks. -/
def headerSection (w : Wr) (method : List Nat) (route_func : Except Unit PyVal)
    (stream : List Nat) (special_routes : List (Int × Handler)) : ConnResult :=
  match readuntilL (ascii "\r\n\r\n") stream with
  | none => ⟨w.wire, w.closed, some PyExc.streamReadError, stream⟩
  | some (raw, rest) =>
    match parseHeaderLines (splitCRLF raw) [] with
    | .error .attrError => ⟨w.wire, w.closed, some PyExc.attributeErrorHeader, rest⟩
    | .error .dup => badRequestResult w rest
    | .ok hf => contentLengthSection w method route_func hf rest special_routes

/-- Source lines 112-165: strip the CRLF, split the start line on single
spaces, and run the checks in source order — version syntax (400), version
allowed (505), method token syntax (where the missing `await` on
`bad_request` means nothing is written and the writer stays open), method
implemented (501), target syntax (400), then the early route resolution
(404 on a miss). -/
def afterStartLine (w : Wr) (start_line : List Nat) (stream : List Nat)
    (routes : List (RoutePattern × Handler))
    (special_routes : List (Int × Handler)) : ConnResult :=
  match start_line.splitOn 32 with
  | [method, request_target, http_version] =>
    if !versionSyntaxOk http_version then badRequestResult w stream
    else if !HTTP_VERSIONS_ALLOWED.contains http_version then
      singleLineResult w 505 "HTTP Version Not Supported" stream
    else if !methodTokenOk method then ⟨w.wire, w.closed, none, stream⟩
    else if !HTTP_METHODS_IMPLEMENTED.contains method then
      singleLineResult w 501 "Not Implemented" stream
    else if !targetOk request_target then badRequestResult w stream
    else
      match router routes (urlparsePath request_target) with
      | none => singleLineResult w 404 "Not Found" stream
      | some route_func => headerSection w method route_func stream special_routes
  | _ => badRequestResult w stream

/-- Source lines 80-251, `request_handler`: one request per connection.  A
failed start-line read is caught and the writer closed, but the subsequent
`start_line[:-2]` then raises `UnboundLocalError`. -/
def request_handler (input : List Nat) (routes : List (RoutePattern × Handler))
    (special_routes : List (Int × Handler)) : ConnResult :=
  match readuntilL (ascii "\r\n") input with
  | none => ⟨[], true, some PyExc.unboundLocalError, input⟩
  | some (raw, rest) =>
    afterStartLine ⟨[], false⟩ (raw.take (raw.length - 2)) rest routes special_routes

/-! ### Concrete handlers and route tables used to exercise the model -/

/-- A handler returning the string `ok`. -/
def okHandler : Handler := fun _ => .ok (.pstr "ok")

/-- A handler that raises. -/
def raiseHandler : Handler := fun _ => .error ()

/-- A handler returning a mapping. -/
def dictHandler : Handler := fun _ => .ok .pdict

/-- The source's `default_not_found` handler (line 306). -/
def default_not_found : Handler := fun _ => .ok (.pstr "<h1>Not found</h1>")

/-- A route table with the single literal route `/`. -/
def rootRoutes : List (RoutePattern × Handler) := [([.lit (ascii "/")], okHandler)]

/-- A route table with the single literal route `/big`. -/
def bigRoutes : List (RoutePattern × Handler) := [([.lit (ascii "/big")], okHandler)]

/-- A route table with the single literal route `/u` whose handler returns a
mapping. -/
def uDictRoutes : List (RoutePattern × Handler) := [([.lit (ascii "/u")], dictHandler)]

/-- A route table whose `/` handler raises. -/
def raisingRoutes : List (RoutePattern × Handler) := [([.lit (ascii "/")], raiseHandler)]

/-! ### A parser over the emitted wire, used to check responses -/

/-- Read the value of the first `Content-Length` header line of an emitted
header block. -/
def parseCLValue (headerBlock : List Nat) : Option Nat :=
  (splitCRLF headerBlock).findSome? (fun line =>
    if (ascii "Content-Length: ").isPrefixOf line then
      digitsParse (line.drop (ascii "Content-Length: ").length)
    else none)

/-- Check that wire output is a response whose header block carries a
`Content-Length` equal to the octet count of the body that follows the first
blank line. -/
def clMatchesBody (wire : List Nat) : Bool :=
  match findSubIdx (ascii "\r\n\r\n") wire with
  | none => false
  | some i =>
    match parseCLValue (wire.take i) with
    | none => false
    | some n => wire.length - (i + 4) = n

/-! ## Theorems settling the claims -/

deriving instance DecidableEq for Except

set_option maxRecDepth 40000

/-! ### Scanning and splitting lemmas -/

theorem findSubIdx_cons_of_neg (sep : List Nat) (x : Nat) (s : List Nat)
    (h : sep.isPrefixOf (x :: s) = false) :
    findSubIdx sep (x :: s) = (findSubIdx sep s).map (· + 1) := by
  simp [findSubIdx, h]

theorem findSubIdx_of_leading_sep (sep s : List Nat) (hne : sep ≠ [])
    (h : sep.isPrefixOf s = true) : findSubIdx sep s = some 0 := by
  cases s with
  | nil =>
    cases sep with
    | nil => exact absurd rfl hne
    | cons a t => simp [List.isPrefixOf] at h
  | cons b rest => simp [findSubIdx, h]

theorem isPrefixOf_cons_of_ne (c x : Nat) (sep s : List Nat) (h : x ≠ c) :
    (c :: sep).isPrefixOf (x :: s) = false := by
  simp [List.isPrefixOf]
  intro hcx
  exact absurd hcx.symm h

theorem findSubIdx_skip (c : Nat) (sep a s : List Nat) (ha : ∀ b ∈ a, b ≠ c) :
    findSubIdx (c :: sep) (a ++ s) = (findSubIdx (c :: sep) s).map (· + a.length) := by
  induction a with
  | nil =>
    simp only [List.nil_append]
    cases findSubIdx (c :: sep) s <;> simp
  | cons x t ih =>
    rw [List.cons_append,
      findSubIdx_cons_of_neg _ _ _ (isPrefixOf_cons_of_ne c x sep _ (ha x (by simp))),
      ih (fun b hb => ha b (by simp [hb]))]
    cases findSubIdx (c :: sep) s <;> simp [Nat.add_assoc]

theorem findSubIdx_sep4_junction (x : Nat) (s : List Nat) (hx : x ≠ 13) :
    findSubIdx [13, 10, 13, 10] (13 :: 10 :: x :: s) =
      (findSubIdx [13, 10, 13, 10] (x :: s)).map (· + 2) := by
  have h1 : ([13, 10, 13, 10] : List Nat).isPrefixOf (13 :: 10 :: x :: s) = false := by
    simp [List.isPrefixOf]
    intro hcx
    exact absurd hcx.symm hx
  have h2 : ([13, 10, 13, 10] : List Nat).isPrefixOf (10 :: x :: s) = false :=
    isPrefixOf_cons_of_ne 13 10 _ _ (by norm_num)
  rw [findSubIdx_cons_of_neg _ _ _ h1, findSubIdx_cons_of_neg _ _ _ h2]
  cases findSubIdx [13, 10, 13, 10] (x :: s) <;> simp [Nat.add_assoc]

theorem splitCRLFAux_cons_ne13 (x : Nat) (s acc : List Nat) (hx : x ≠ 13) (hs : s ≠ []) :
    splitCRLFAux (x :: s) acc = splitCRLFAux s (x :: acc) := by
  cases s with
  | nil => exact absurd rfl hs
  | cons y t => simp [splitCRLFAux, hx]

theorem splitCRLFAux_no13_crlf (a : List Nat) (s : List Nat) (ha : ∀ b ∈ a, b ≠ 13) :
    ∀ acc, splitCRLFAux (a ++ 13 :: 10 :: s) acc = (acc.reverse ++ a) :: splitCRLFAux s [] := by
  induction a with
  | nil => intro acc; simp [splitCRLFAux]
  | cons x t ih =>
    intro acc
    rw [List.cons_append, splitCRLFAux_cons_ne13 x _ acc (ha x (by simp)) (by simp),
      ih (fun b hb => ha b (by simp [hb])) (x :: acc)]
    simp

theorem splitCRLFAux_no13_end (a : List Nat) (ha : ∀ b ∈ a, b ≠ 13) :
    ∀ acc, splitCRLFAux a acc = [acc.reverse ++ a] := by
  induction a with
  | nil => intro acc; simp [splitCRLFAux]
  | cons x t ih =>
    intro acc
    cases t with
    | nil => simp [splitCRLFAux]
    | cons y u =>
      rw [splitCRLFAux_cons_ne13 x (y :: u) acc (ha x (by simp)) (by simp),
        ih (fun b hb => ha b (by simp [hb])) (x :: acc)]
      simp

theorem takeWhile_append_all {p : Nat → Bool} (a s : List Nat) (ha : ∀ b ∈ a, p b = true) :
    (a ++ s).takeWhile p = a ++ s.takeWhile p := by
  induction a with
  | nil => rfl
  | cons x t ih =>
    rw [List.cons_append, List.takeWhile_cons, ha x (by simp),
      ih (fun b hb => ha b (by simp [hb]))]
    rfl

theorem dropWhile_append_all {p : Nat → Bool} (a s : List Nat) (ha : ∀ b ∈ a, p b = true) :
    (a ++ s).dropWhile p = s.dropWhile p := by
  induction a with
  | nil => rfl
  | cons x t ih =>
    rw [List.cons_append, List.dropWhile_cons, ha x (by simp),
      ih (fun b hb => ha b (by simp [hb]))]
    rfl

theorem takeWhile_all_self {p : Nat → Bool} (s : List Nat) (hs : ∀ b ∈ s, p b = true) :
    s.takeWhile p = s := by
  induction s with
  | nil => rfl
  | cons x t ih =>
    rw [List.takeWhile_cons, hs x (by simp), ih (fun b hb => hs b (by simp [hb]))]
    rfl

theorem pyStrip_no_strip (s : List Nat) (h1 : ∀ b, s.head? = some b → isPySpace b = false)
    (h2 : ∀ b, s.getLast? = some b → isPySpace b = false) : pyStrip s = s := by
  have hd : s.dropWhile isPySpace = s := by
    cases s with
    | nil => rfl
    | cons x t =>
      rw [List.dropWhile_cons, h1 x rfl]
      simp
  have hr : s.reverse.dropWhile isPySpace = s.reverse := by
    rcases List.eq_nil_or_concat s with h | ⟨L, b, hL⟩
    · simp [h]
    · subst hL
      have hb : isPySpace b = false := h2 b (by simp [List.concat_eq_append])
      rw [List.concat_eq_append, List.reverse_append]
      simp only [List.reverse_cons, List.reverse_nil, List.nil_append, List.singleton_append]
      rw [List.dropWhile_cons, hb]
      simp
  unfold pyStrip
  rw [hd, hr, List.reverse_reverse]

/-! ### Decimal representation lemmas: `str(n)` parses back to `n` -/

theorem natReprAux_digits : ∀ (f n : Nat) (acc : List Nat),
    (∀ b ∈ acc, isDigit b = true) → ∀ b ∈ natReprAux f n acc, isDigit b = true := by
  intro f
  induction f with
  | zero =>
    intro n acc hacc b hb
    cases n with
    | zero => exact hacc b hb
    | succ m => exact hacc b hb
  | succ f ih =>
    intro n acc hacc b hb
    cases n with
    | zero => exact hacc b hb
    | succ m =>
      refine ih ((m + 1) / 10) ((48 + (m + 1) % 10) :: acc) ?_ b hb
      intro x hx
      rcases List.mem_cons.mp hx with h | h
      · subst h
        simp only [isDigit, Bool.and_eq_true, decide_eq_true_eq]
        omega
      · exact hacc x h

theorem natReprAux_ne_nil : ∀ (f n : Nat) (acc : List Nat),
    (n ≠ 0 ∧ n ≤ f) ∨ acc ≠ [] → natReprAux f n acc ≠ [] := by
  intro f
  induction f with
  | zero =>
    intro n acc h
    cases n with
    | zero =>
      rcases h with ⟨h1, _⟩ | h2
      · exact absurd rfl h1
      · exact h2
    | succ m =>
      rcases h with ⟨_, h1⟩ | h2
      · omega
      · exact h2
  | succ f ih =>
    intro n acc h
    cases n with
    | zero =>
      rcases h with ⟨h1, _⟩ | h2
      · exact absurd rfl h1
      · exact h2
    | succ m => exact ih ((m + 1) / 10) ((48 + (m + 1) % 10) :: acc) (Or.inr (by simp))

theorem foldl_digits_init (ds : List Nat) :
    ∀ i, ds.foldl (fun a b => a * 10 + (b - 48)) i =
      i * 10 ^ ds.length + ds.foldl (fun a b => a * 10 + (b - 48)) 0 := by
  induction ds with
  | nil => intro i; simp
  | cons b t ih =>
    intro i
    simp only [List.foldl_cons, List.length_cons]
    rw [ih (i * 10 + (b - 48)), ih (0 * 10 + (b - 48))]
    ring

theorem natReprAux_foldl : ∀ (f n : Nat) (acc : List Nat), n ≤ f →
    (natReprAux f n acc).foldl (fun a b => a * 10 + (b - 48)) 0 =
      n * 10 ^ acc.length + acc.foldl (fun a b => a * 10 + (b - 48)) 0 := by
  intro f
  induction f with
  | zero =>
    intro n acc h
    interval_cases n
    simp [natReprAux]
  | succ f ih =>
    intro n acc h
    cases n with
    | zero => simp [natReprAux]
    | succ m =>
      have hle : (m + 1) / 10 ≤ f := by
        have : (m + 1) / 10 ≤ m := by omega
        omega
      have hstep : natReprAux (f + 1) (m + 1) acc =
          natReprAux f ((m + 1) / 10) ((48 + (m + 1) % 10) :: acc) := rfl
      rw [hstep, ih ((m + 1) / 10) ((48 + (m + 1) % 10) :: acc) hle]
      simp only [List.length_cons, List.foldl_cons]
      rw [foldl_digits_init acc (0 * 10 + (48 + (m + 1) % 10 - 48))]
      have hm : 0 * 10 + (48 + (m + 1) % 10 - 48) = (m + 1) % 10 := by omega
      rw [hm]
      have hq := Nat.div_add_mod (m + 1) 10
      set q := (m + 1) / 10 with hqdef
      set r := (m + 1) % 10 with hrdef
      have h2 : m + 1 = 10 * q + r := hq.symm
      rw [h2]
      ring

theorem digitsParseAux_foldl (ds : List Nat) :
    ∀ acc, (∀ b ∈ ds, isDigit b = true) →
      digitsParseAux ds acc = some (ds.foldl (fun a b => a * 10 + (b - 48)) acc) := by
  induction ds with
  | nil => intro acc _; rfl
  | cons b t ih =>
    intro acc hall
    have hb : isDigit b = true := hall b (by simp)
    simp only [digitsParseAux, hb, if_true, List.foldl_cons]
    exact ih (acc * 10 + (b - 48)) (fun x hx => hall x (by simp [hx]))

theorem digitsParse_natRepr (n : Nat) : digitsParse (natRepr n) = some n := by
  cases n with
  | zero => rfl
  | succ m =>
    have hne : natReprAux (m + 1) (m + 1) [] ≠ [] :=
      natReprAux_ne_nil (m + 1) (m + 1) [] (Or.inl ⟨by omega, le_refl _⟩)
    have hdig : ∀ b ∈ natReprAux (m + 1) (m + 1) [], isDigit b = true :=
      natReprAux_digits (m + 1) (m + 1) [] (by intro b hb; cases hb)
    have hval : (natReprAux (m + 1) (m + 1) []).foldl (fun a b => a * 10 + (b - 48)) 0 =
        m + 1 := by
      rw [natReprAux_foldl (m + 1) (m + 1) [] (le_refl _)]
      simp
    have hnr : natRepr (m + 1) = natReprAux (m + 1) (m + 1) [] := by
      simp [natRepr]
    rw [hnr]
    cases h : natReprAux (m + 1) (m + 1) [] with
    | nil => exact absurd h hne
    | cons b rest =>
      have hb : isDigit b = true := hdig b (by rw [h]; simp)
      have hrest : ∀ x ∈ rest, isDigit x = true := fun x hx => hdig x (by rw [h]; simp [hx])
      simp only [digitsParse, hb, if_true]
      rw [digitsParseAux_foldl rest (b - 48) hrest]
      rw [h] at hval
      simp only [List.foldl_cons] at hval
      have : (0 : Nat) * 10 + (b - 48) = b - 48 := by omega
      rw [this] at hval
      rw [hval]

/-- Claim C1, counterexample: the spec's chunked scenario (d) — a POST with
`Transfer-Encoding: chunked` and no `Content-Length` — does not deliver the
5-byte body `hello` to the handler with a 200 response; the server answers
`411 Length Required`, closes, and never reads a single chunk byte. -/
theorem c1_counterexample :
    request_handler
        (pyEncode "POST /big HTTP/1.1\r\nHost: x\r\nTransfer-Encoding: chunked\r\n\r\n5\r\nhello\r\n0\r\n\r\n")
        bigRoutes [] =
      ⟨pyEncode "HTTP/1.1 411 Length Required\r\n\r\n", true, none,
       pyEncode "5\r\nhello\r\n0\r\n\r\n"⟩ := by
  decide

/-- Claim C2, counterexample: a request whose header block has no `host`
field is not rejected with 400; it is served normally with a 200 response. -/
theorem c2_counterexample :
    request_handler (pyEncode "GET / HTTP/1.1\r\nFoo: bar\r\n\r\n") rootRoutes [] =
      ⟨pyEncode "HTTP/1.1 200 OK\r\nContent-Type: text/html\r\nContent-Length: 2\r\n\r\nok",
       true, none, []⟩ := by
  decide

/-- Claim C3, counterexample: the spec's keep-alive scenario (e) — HTTP/1.0
with `Connection: keep-alive`, a second request already buffered — gets a 200
response that carries no `Connection: keep-alive` header, the writer is
closed, and the second request's bytes are never read. -/
theorem c3_counterexample :
    request_handler
        (pyEncode "GET / HTTP/1.0\r\nHost: x\r\nConnection: keep-alive\r\n\r\nGET / HTTP/1.0\r\nHost: x\r\n\r\n")
        rootRoutes [] =
      ⟨pyEncode "HTTP/1.1 200 OK\r\nContent-Type: text/html\r\nContent-Length: 2\r\n\r\nok",
       true, none, pyEncode "GET / HTTP/1.0\r\nHost: x\r\n\r\n"⟩ ∧
    findSubIdx (ascii "keep-alive")
        (request_handler
          (pyEncode "GET / HTTP/1.0\r\nHost: x\r\nConnection: keep-alive\r\n\r\nGET / HTTP/1.0\r\nHost: x\r\n\r\n")
          rootRoutes []).wire = none := by
  exact ⟨by decide, by decide⟩

/-- Claim C4: the spec's duplicate-header scenario (f).  Two `Host:` lines do
not produce a 400: the duplicate check compares the raw name `Host` against
keys that were stored lowercased as `host`, so the second line silently
overwrites the first and the request is served 200.  Only a repetition whose
raw spelling equals a stored lowercased key (e.g. two `host:` lines) is
caught. -/
theorem c4_behavior :
    parseHeaderLines [ascii "Host: x", ascii "Host: y", [], []] [] =
      .ok [(ascii "host", (ascii "Host", ascii "y"))] ∧
    parseHeaderLines [ascii "host: x", ascii "host: y", [], []] [] = .error .dup ∧
    request_handler (pyEncode "GET / HTTP/1.1\r\nHost: x\r\nHost: y\r\n\r\n") rootRoutes [] =
      ⟨pyEncode "HTTP/1.1 200 OK\r\nContent-Type: text/html\r\nContent-Length: 2\r\n\r\nok",
       true, none, []⟩ := by
  exact ⟨by decide, by decide, by decide⟩

/-- Claim C5, counterexample: `GET` with `Content-Length: 0` is not accepted;
the mere presence of a content-length on a safe method is a 400, whatever the
value. -/
theorem c5_counterexample :
    request_handler (pyEncode "GET / HTTP/1.1\r\nHost: x\r\nContent-Length: 0\r\n\r\n")
        rootRoutes [] =
      ⟨pyEncode "HTTP/1.1 400 Bad Request\r\n\r\n", true, none, []⟩ := by
  decide

/-- Claim C6, counterexample: a raising handler does not produce a 500
response; the exception escapes the connection task with nothing written and
the writer left open. -/
theorem c6_counterexample :
    request_handler (pyEncode "GET / HTTP/1.1\r\nHost: x\r\n\r\n") raisingRoutes [] =
      ⟨[], false, some PyExc.handlerError, []⟩ := by
  decide

/-- Claim C7, counterexample: the 404 response to an unrouted path — a non-204
response — carries no `Content-Length` header at all. -/
theorem c7_counterexample :
    request_handler (pyEncode "GET /nope HTTP/1.1\r\nHost: x\r\n\r\n") rootRoutes [] =
      ⟨pyEncode "HTTP/1.1 404 Not Found\r\n\r\n", true, none, pyEncode "Host: x\r\n\r\n"⟩ ∧
    findSubIdx (ascii "Content-Length")
        (request_handler (pyEncode "GET /nope HTTP/1.1\r\nHost: x\r\n\r\n") rootRoutes []).wire =
      none := by
  exact ⟨by decide, by decide⟩

/-- Claim C8, counterexample: with the default 404 handler registered in
`special_routes`, an unrouted path still yields the bare status line — no
`Connection: close` header and no `<h1>Not found</h1>` body. -/
theorem c8_counterexample :
    request_handler (pyEncode "GET /nope HTTP/1.1\r\nHost: x\r\n\r\n") rootRoutes
        [(404, default_not_found)] =
      ⟨pyEncode "HTTP/1.1 404 Not Found\r\n\r\n", true, none, pyEncode "Host: x\r\n\r\n"⟩ ∧
    findSubIdx (ascii "Connection")
        (request_handler (pyEncode "GET /nope HTTP/1.1\r\nHost: x\r\n\r\n") rootRoutes
          [(404, default_not_found)]).wire = none ∧
    findSubIdx (ascii "<h1>")
        (request_handler (pyEncode "GET /nope HTTP/1.1\r\nHost: x\r\n\r\n") rootRoutes
          [(404, default_not_found)]).wire = none := by
  exact ⟨by decide, by decide, by decide⟩

/-- Claim C9, counterexample: a string handler return is sent with
`Content-Type: text/html` — no `charset=utf-8` parameter appears anywhere on
the wire — and a mapping return is not JSON-encoded at all: `body.encode()`
raises `AttributeError` and nothing is written. -/
theorem c9_counterexample :
    request_handler (pyEncode "GET / HTTP/1.1\r\nHost: x\r\n\r\n") rootRoutes [] =
      ⟨pyEncode "HTTP/1.1 200 OK\r\nContent-Type: text/html\r\nContent-Length: 2\r\n\r\nok",
       true, none, []⟩ ∧
    findSubIdx (ascii "charset")
        (request_handler (pyEncode "GET / HTTP/1.1\r\nHost: x\r\n\r\n") rootRoutes []).wire =
      none ∧
    request_handler
        (pyEncode "POST /u HTTP/1.1\r\nHost: x\r\nContent-Length: 5\r\nContent-Type: application/json\r\n\r\n\"hi!\"")
        uDictRoutes [] =
      ⟨[], false, some PyExc.attributeErrorEncode, []⟩ := by
  exact ⟨by decide, by decide, by decide⟩

/-- Claim C10: for the method `G@T`, which fails token syntax, the missing
`await` on `bad_request` (source line 138) means no 400 — indeed nothing at
all — is written, and the writer is left open; while the syntactically valid
but unimplemented method `CONNECT` does get its `501 Not Implemented`. -/
theorem c10_behavior :
    request_handler (pyEncode "G@T / HTTP/1.1\r\nHost: x\r\n\r\n") rootRoutes [] =
      ⟨[], false, none, pyEncode "Host: x\r\n\r\n"⟩ ∧
    request_handler (pyEncode "CONNECT / HTTP/1.1\r\nHost: x\r\n\r\n") rootRoutes [] =
      ⟨pyEncode "HTTP/1.1 501 Not Implemented\r\n\r\n", true, none, pyEncode "Host: x\r\n\r\n"⟩ := by
  exact ⟨by decide, by decide⟩

/-! ## Supporting lemmas -/

/-- No `functools.partial` object ever equals an `int` dict key, so the
membership test of source line 248 never succeeds. -/
theorem routeFuncInSpecialRoutes_eq_false (sp : List (Int × Handler)) :
    routeFuncInSpecialRoutes sp = false := by
  simp [routeFuncInSpecialRoutes]

/-- Searching for any key other than `host` is unaffected by deleting the
`host` entry. -/
theorem find?_filterHost (hf : HeaderDict) (k : List Nat) (hk : k ≠ ascii "host") :
    List.find? (fun p => p.1 = k) (hf.filter (fun p => p.1 ≠ ascii "host")) =
      List.find? (fun p => p.1 = k) hf := by
  induction hf with
  | nil => rfl
  | cons p t ih =>
    by_cases hp : p.1 = ascii "host"
    · rw [List.filter_cons_of_neg (by simp [hp]), ih, List.find?_cons_of_neg]
      simp only [decide_eq_true_eq]
      exact fun h => hk (by rw [← h]; exact hp)
    · rw [List.filter_cons_of_pos (by simp [hp])]
      by_cases hpk : p.1 = k
      · rw [List.find?_cons_of_pos _ (by simp [hpk]), List.find?_cons_of_pos _ (by simp [hpk])]
      · rw [List.find?_cons_of_neg _ (by simp [hpk]), List.find?_cons_of_neg _ (by simp [hpk]),
          ih]

/-- Looking up any key other than `host` is unaffected by deleting the `host`
entry. -/
theorem dictGet_filterHost (hf : HeaderDict) (k : List Nat) (hk : k ≠ ascii "host") :
    dictGet (hf.filter (fun p => p.1 ≠ ascii "host")) k = dictGet hf k := by
  unfold dictGet
  rw [find?_filterHost hf k hk]

/-! ## Amended claims -/

/-- Claim C6, amended: handler exceptions are not caught at the driver
boundary.  For every writer state, stream and special-route table, a raising
handler terminates the connection task with the exception escaping, nothing
further written, and the writer not closed — no 500 is produced. -/
theorem c6_amended (w : Wr) (stream : List Nat) (special : List (Int × Handler)) :
    dispatch w (.error ()) stream special =
      ⟨w.wire, w.closed, some PyExc.handlerError, stream⟩ := by
  simp [dispatch, routeFuncInSpecialRoutes_eq_false]

/-- Claim C9, amended: handler values are not normalised by type.  A string
return is rendered with the fixed header `Content-Type: text/html` (no
charset) and the UTF-8 encoded string as the body; a mapping return is never
JSON-encoded — `body.encode()` raises `AttributeError` with nothing
written. -/
theorem c9_amended (w : Wr) (stream : List Nat) (special : List (Int × Handler)) (s : String) :
    dispatch w (.ok (.pstr s)) stream special =
      ⟨w.wire ++ statusLineBytes 200 "OK" ++ headerLineBytes ("Content-Type", "text/html") ++
        (pyEncode "Content-Length: " ++ natRepr (pyEncode s).length ++ pyEncode "\r\n") ++
        pyEncode "\r\n" ++ pyEncode s, true, none, stream⟩ ∧
    dispatch w (.ok .pdict) stream special =
      ⟨w.wire, w.closed, some PyExc.attributeErrorEncode, stream⟩ := by
  constructor
  · simp [dispatch, routeFuncInSpecialRoutes_eq_false, response, wWrite, wClose,
      List.append_assoc]
  · simp [dispatch, routeFuncInSpecialRoutes_eq_false, response]

/-- Claim C2, amended: the parser performs no host validation.  Processing
after header parsing is invariant under deleting the `host` entry from the
parsed header mapping: no code path ever consults it. -/
theorem c2_amended (w : Wr) (method : List Nat) (rf : Except Unit PyVal) (hf : HeaderDict)
    (stream : List Nat) (special : List (Int × Handler)) :
    contentLengthSection w method rf (hf.filter (fun p => p.1 ≠ ascii "host")) stream special =
      contentLengthSection w method rf hf stream special := by
  unfold contentLengthSection contentTypeSection
  rw [dictGet_filterHost hf (ascii "content-length") (by decide),
    dictGet_filterHost hf (ascii "content-type") (by decide)]

theorem dispatch_special (w : Wr) (rf : Except Unit PyVal) (stream : List Nat)
    (sp sp2 : List (Int × Handler)) :
    dispatch w rf stream sp = dispatch w rf stream sp2 := by
  cases rf <;> simp [dispatch, routeFuncInSpecialRoutes_eq_false]

theorem readBodyAndDispatch_special (w : Wr) (m : List Nat) (rf : Except Unit PyVal)
    (cl : Option Int) (stream : List Nat) (sp sp2 : List (Int × Handler)) :
    readBodyAndDispatch w m rf cl stream sp = readBodyAndDispatch w m rf cl stream sp2 := by
  unfold readBodyAndDispatch
  simp only [show ∀ s, dispatch w rf s sp = dispatch w rf s sp2 from
    fun s => dispatch_special w rf s sp sp2]

theorem contentTypeSection_special (w : Wr) (m : List Nat) (rf : Except Unit PyVal)
    (hf : HeaderDict) (cl : Option Int) (stream : List Nat) (sp sp2 : List (Int × Handler)) :
    contentTypeSection w m rf hf cl stream sp = contentTypeSection w m rf hf cl stream sp2 := by
  unfold contentTypeSection
  simp only [readBodyAndDispatch_special w m rf cl stream sp sp2]

theorem contentLengthSection_special (w : Wr) (m : List Nat) (rf : Except Unit PyVal)
    (hf : HeaderDict) (stream : List Nat) (sp sp2 : List (Int × Handler)) :
    contentLengthSection w m rf hf stream sp = contentLengthSection w m rf hf stream sp2 := by
  unfold contentLengthSection
  simp only [show ∀ c, contentTypeSection w m rf hf c stream sp =
      contentTypeSection w m rf hf c stream sp2 from
    fun c => contentTypeSection_special w m rf hf c stream sp sp2]

theorem headerSection_special (w : Wr) (m : List Nat) (rf : Except Unit PyVal)
    (stream : List Nat) (sp sp2 : List (Int × Handler)) :
    headerSection w m rf stream sp = headerSection w m rf stream sp2 := by
  unfold headerSection
  simp only [show ∀ hf s, contentLengthSection w m rf hf s sp =
      contentLengthSection w m rf hf s sp2 from
    fun hf s => contentLengthSection_special w m rf hf s sp sp2]

theorem afterStartLine_special (w : Wr) (sl stream : List Nat)
    (routes : List (RoutePattern × Handler)) (sp sp2 : List (Int × Handler)) :
    afterStartLine w sl stream routes sp = afterStartLine w sl stream routes sp2 := by
  unfold afterStartLine
  simp only [show ∀ m rf, headerSection w m rf stream sp = headerSection w m rf stream sp2 from
    fun m rf => headerSection_special w m rf stream sp sp2]

/-- Claim C8, amended: status-keyed handlers are never used in rendering.
The result of `request_handler` is identical for every `special_routes`
table — the membership test of source line 248 compares a partial object
against integer keys and always passes, so the registered handlers (the
default 404 included) are unreachable for error rendering. -/
theorem c8_amended (input : List Nat) (routes : List (RoutePattern × Handler))
    (sp sp2 : List (Int × Handler)) :
    request_handler input routes sp = request_handler input routes sp2 := by
  unfold request_handler
  cases readuntilL (ascii "\r\n") input with
  | none => rfl
  | some p => exact afterStartLine_special ⟨[], false⟩ (p.1.take (p.1.length - 2)) p.2 routes sp sp2

/-- Claim C5, amended: the decision table of the framing code.  With no
chunked support, a present `content-length` on a safe method is a 400
whatever its value (zero included); an unparsable value kills the task with
`KeyError` instead of answering 400; a parsed value above 1 MiB is a 400; a
missing `content-length` on an unsafe method is a 411.  And content-type does
play a role: present on a safe method, absent on an unsafe method, or outside
the allowlist, each is a 400. -/
theorem c5_amended (w : Wr) (method : List Nat) (rf : Except Unit PyVal) (hf : HeaderDict)
    (cl0 : Option Int) (stream : List Nat) (special : List (Int × Handler)) :
    (dictGet hf (ascii "content-length") = none →
      HTTP_METHOD_SAFE.contains method = false →
      contentLengthSection w method rf hf stream special =
        singleLineResult w 411 "Length Required" stream) ∧
    (∀ cl, dictGet hf (ascii "content-length") = some cl → pyInt cl.2 = none →
      contentLengthSection w method rf hf stream special =
        ⟨w.wire, w.closed, some PyExc.keyErrorContentLength, stream⟩) ∧
    (∀ cl n, dictGet hf (ascii "content-length") = some cl → pyInt cl.2 = some n →
      HTTP_METHOD_SAFE.contains method = true →
      contentLengthSection w method rf hf stream special = badRequestResult w stream) ∧
    (∀ cl n, dictGet hf (ascii "content-length") = some cl → pyInt cl.2 = some n →
      HTTP_METHOD_SAFE.contains method = false → n > (CONTENT_LENGTH_MAX : Int) →
      contentLengthSection w method rf hf stream special = badRequestResult w stream) ∧
    (∀ ct, dictGet hf (ascii "content-type") = some ct →
      HTTP_METHOD_SAFE.contains method = true →
      contentTypeSection w method rf hf cl0 stream special = badRequestResult w stream) ∧
    (∀ ct, dictGet hf (ascii "content-type") = some ct →
      HTTP_METHOD_SAFE.contains method = false →
      CONTENT_TYPE_ALLOWED.contains ct.2 = false →
      contentTypeSection w method rf hf cl0 stream special = badRequestResult w stream) ∧
    (dictGet hf (ascii "content-type") = none →
      HTTP_METHOD_SAFE.contains method = false →
      contentTypeSection w method rf hf cl0 stream special = badRequestResult w stream) := by
  refine ⟨?_, ?_, ?_, ?_, ?_, ?_, ?_⟩
  · intro h1 h2
    simp only [contentLengthSection, h1]
    rw [h2]
    simp
  · intro cl h1 h2
    simp only [contentLengthSection, h1, h2]
  · intro cl n h1 h2 h3
    simp only [contentLengthSection, h1, h2]
    rw [h3]
    simp
  · intro cl n h1 h2 h3 h4
    simp only [contentLengthSection, h1, h2]
    rw [h3]
    simp [h4]
  · intro ct h1 h2
    simp only [contentTypeSection, h1]
    rw [h2]
    simp
  · intro ct h1 h2 h3
    simp only [contentTypeSection, h1]
    rw [h2, h3]
    simp
  · intro h1 h2
    simp only [contentTypeSection, h1]
    rw [h2]
    simp

theorem singleLineResult_closed (w : Wr) (c : Nat) (t : String) (s : List Nat) :
    (singleLineResult w c t s).closed = true := rfl

theorem badRequestResult_closed (w : Wr) (s : List Nat) :
    (badRequestResult w s).closed = true := rfl

theorem dispatch_wire_or_closed (w : Wr) (rf : Except Unit PyVal) (stream : List Nat)
    (sp : List (Int × Handler)) :
    (dispatch w rf stream sp).wire = w.wire ∨ (dispatch w rf stream sp).closed = true := by
  cases rf with
  | error e => left; simp [dispatch, routeFuncInSpecialRoutes_eq_false]
  | ok b =>
    cases b with
    | pstr s => right; simp [dispatch, routeFuncInSpecialRoutes_eq_false, response, wClose, wWrite]
    | pdict => left; simp [dispatch, routeFuncInSpecialRoutes_eq_false, response]
    | pother => left; simp [dispatch, routeFuncInSpecialRoutes_eq_false, response]

theorem readBodyAndDispatch_wire_or_closed (w : Wr) (m : List Nat) (rf : Except Unit PyVal)
    (cl : Option Int) (stream : List Nat) (sp : List (Int × Handler)) :
    (readBodyAndDispatch w m rf cl stream sp).wire = w.wire ∨
      (readBodyAndDispatch w m rf cl stream sp).closed = true := by
  unfold readBodyAndDispatch
  split
  · exact dispatch_wire_or_closed w rf stream sp
  · cases cl with
    | none => left; rfl
    | some n =>
      simp only []
      split
      · left; rfl
      · split
        · left; rfl
        · exact dispatch_wire_or_closed w rf (stream.drop n.toNat) sp

theorem contentTypeSection_wire_or_closed (w : Wr) (m : List Nat) (rf : Except Unit PyVal)
    (hf : HeaderDict) (cl : Option Int) (stream : List Nat) (sp : List (Int × Handler)) :
    (contentTypeSection w m rf hf cl stream sp).wire = w.wire ∨
      (contentTypeSection w m rf hf cl stream sp).closed = true := by
  unfold contentTypeSection
  cases dictGet hf (ascii "content-type") with
  | some ct =>
    simp only []
    split
    · right; exact badRequestResult_closed w stream
    · split
      · right; exact badRequestResult_closed w stream
      · exact readBodyAndDispatch_wire_or_closed w m rf cl stream sp
  | none =>
    simp only []
    split
    · right; exact badRequestResult_closed w stream
    · exact readBodyAndDispatch_wire_or_closed w m rf cl stream sp

theorem contentLengthSection_wire_or_closed (w : Wr) (m : List Nat) (rf : Except Unit PyVal)
    (hf : HeaderDict) (stream : List Nat) (sp : List (Int × Handler)) :
    (contentLengthSection w m rf hf stream sp).wire = w.wire ∨
      (contentLengthSection w m rf hf stream sp).closed = true := by
  unfold contentLengthSection
  cases dictGet hf (ascii "content-length") with
  | none =>
    simp only []
    split
    · right; exact singleLineResult_closed w 411 "Length Required" stream
    · exact contentTypeSection_wire_or_closed w m rf hf none stream sp
  | some cl =>
    simp only []
    cases pyInt cl.2 with
    | none => left; rfl
    | some n =>
      simp only []
      split
      · right; exact badRequestResult_closed w stream
      · split
        · right; exact badRequestResult_closed w stream
        · exact contentTypeSection_wire_or_closed w m rf hf (some n) stream sp

theorem headerSection_wire_or_closed (w : Wr) (m : List Nat) (rf : Except Unit PyVal)
    (stream : List Nat) (sp : List (Int × Handler)) :
    (headerSection w m rf stream sp).wire = w.wire ∨
      (headerSection w m rf stream sp).closed = true := by
  unfold headerSection
  cases readuntilL (ascii "\r\n\r\n") stream with
  | none => left; rfl
  | some p =>
    simp only []
    cases parseHeaderLines (splitCRLF p.1) [] with
    | error e =>
      cases e with
      | attrError => left; rfl
      | dup => right; exact badRequestResult_closed w p.2
    | ok hf => exact contentLengthSection_wire_or_closed w m rf hf p.2 sp

theorem afterStartLine_wire_or_closed (w : Wr) (sl stream : List Nat)
    (routes : List (RoutePattern × Handler)) (sp : List (Int × Handler)) :
    (afterStartLine w sl stream routes sp).wire = w.wire ∨
      (afterStartLine w sl stream routes sp).closed = true := by
  unfold afterStartLine
  split
  · split
    · right; exact badRequestResult_closed w stream
    · split
      · right; exact singleLineResult_closed w 505 "HTTP Version Not Supported" stream
      · split
        · left; rfl
        · split
          · right; exact singleLineResult_closed w 501 "Not Implemented" stream
          · split
            · right; exact badRequestResult_closed w stream
            · cases router routes (urlparsePath _) with
              | none => right; exact singleLineResult_closed w 404 "Not Found" stream
              | some rf => exact headerSection_wire_or_closed w _ rf stream sp
  · right; exact badRequestResult_closed w stream

/-- Claim C3, amended: there is no keep-alive decision.  Whenever
`request_handler` writes anything at all to a connection — success or error,
whatever the HTTP version or `Connection` header — the writer is closed; a
second request can never be served. -/
theorem c3_amended (input : List Nat) (routes : List (RoutePattern × Handler))
    (special : List (Int × Handler))
    (h : (request_handler input routes special).wire ≠ []) :
    (request_handler input routes special).closed = true := by
  revert h
  unfold request_handler
  cases readuntilL (ascii "\r\n") input with
  | none => intro h; rfl
  | some p =>
    simp only []
    intro h
    rcases afterStartLine_wire_or_closed ⟨[], false⟩ (p.1.take (p.1.length - 2)) p.2 routes
        special with hw | hc
    · exact absurd hw h
    · exact hc

/-- Claim C3, witness for the amended theorem: the spec's scenario (e) — an
HTTP/1.0 request asking for keep-alive — still ends with the writer closed. -/
theorem c3_amended_witness :
    (request_handler
      (pyEncode "GET / HTTP/1.0\r\nHost: x\r\nConnection: keep-alive\r\n\r\nGET / HTTP/1.0\r\nHost: x\r\n\r\n")
      rootRoutes []).closed = true :=
  c3_amended _ rootRoutes [] (by decide)

/-- Claim C5, witness for the amended theorem: a `POST` with no
`content-length` header at all gets `411 Length Required`, and a `GET` whose
header mapping carries `content-length: 0` gets the 400 of `bad_request`. -/
theorem c5_amended_witness :
    contentLengthSection ⟨[], false⟩ (ascii "POST") (.ok (.pstr "ok")) [] [] [] =
      singleLineResult ⟨[], false⟩ 411 "Length Required" [] ∧
    contentLengthSection ⟨[], false⟩ (ascii "GET") (.ok (.pstr "ok"))
        [(ascii "content-length", (ascii "Content-Length", ascii "0"))] [] [] =
      badRequestResult ⟨[], false⟩ [] := by
  constructor
  · exact (c5_amended ⟨[], false⟩ (ascii "POST") (.ok (.pstr "ok")) [] none [] []).1
      (by decide) (by decide)
  · exact (c5_amended ⟨[], false⟩ (ascii "GET") (.ok (.pstr "ok"))
      [(ascii "content-length", (ascii "Content-Length", ascii "0"))] none [] []).2.2.1
      (ascii "Content-Length", ascii "0") 0 (by decide) (by decide) (by decide)


/-- Python `str` concatenation then `encode` equals encoding both parts. -/
theorem pyEncode_append (a b : String) : pyEncode (a ++ b) = pyEncode a ++ pyEncode b := by
  simp [pyEncode, String.data_append]

/-- Every byte of `str(n)` is an ASCII digit. -/
theorem natRepr_digits (n : Nat) : ∀ b ∈ natRepr n, isDigit b = true := by
  unfold natRepr
  split
  · intro b hb
    simp at hb
    subst hb
    decide
  · exact natReprAux_digits n n [] (by intro b hb; cases hb)

/-- ASCII digits are neither CR nor LF. -/
theorem isDigit_ne (b : Nat) (h : isDigit b = true) : b ≠ 13 ∧ b ≠ 10 := by
  simp [isDigit] at h
  omega

/-- Claim C7, amended: responses written by `response` — the 200 success
path — do carry a `Content-Length` equal to the octet count of the body that
follows the blank line, for every status code, reason phrase without CR/LF,
and handler string. (The single-line error responses carry none, per the
counterexample.) -/
theorem c7_amended (code : Nat) (text s : String)
    (htext : ∀ b ∈ pyEncode text, b ≠ 13 ∧ b ≠ 10) :
    clMatchesBody ((response ⟨[], false⟩ code text [("Content-Type", "text/html")]
      (.pstr s)).1.wire) = true := by
  set P1 := pyEncode "HTTP/1.1 " ++ natRepr code ++ (pyEncode " " ++ pyEncode text) with hP1def
  set CT := ascii "Content-Type: text/html" with hCTdef
  set CL := ascii "Content-Length: " ++ natRepr (pyEncode s).length with hCLdef
  set body := pyEncode s with hbodydef
  have hwire : (response ⟨[], false⟩ code text [("Content-Type", "text/html")]
      (.pstr s)).1.wire =
      P1 ++ 13 :: 10 :: (CT ++ 13 :: 10 :: (CL ++ 13 :: 10 :: 13 :: 10 :: body)) := by
    simp [response, wWrite, wClose, statusLineBytes, headerLineBytes, pyEncode_append,
      List.append_assoc, hP1def, hCTdef, hCLdef, hbodydef,
      (by decide : pyEncode "\r\n" = [13, 10]),
      (by decide : pyEncode "Content-Type: text/html\r\n" =
        ascii "Content-Type: text/html" ++ [13, 10]),
      (by decide : pyEncode "Content-Length: " = ascii "Content-Length: ")]
  rw [hwire]
  have hHTTP : ∀ b ∈ pyEncode "HTTP/1.1 ", b ≠ 13 := by decide
  have hSP : ∀ b ∈ pyEncode " ", b ≠ 13 := by decide
  have hCLpre : ∀ b ∈ ascii "Content-Length: ", b ≠ 13 := by decide
  have hP1ne13 : ∀ b ∈ P1, b ≠ 13 := by
    intro b hb
    rw [hP1def] at hb
    simp only [List.mem_append] at hb
    rcases hb with (hb | hb) | (hb | hb)
    · exact hHTTP b hb
    · exact (isDigit_ne b (natRepr_digits code b hb)).1
    · exact hSP b hb
    · exact (htext b hb).1
  have hCLne13 : ∀ b ∈ CL, b ≠ 13 := by
    intro b hb
    rw [hCLdef] at hb
    simp only [List.mem_append] at hb
    rcases hb with hb | hb
    · exact hCLpre b hb
    · exact (isDigit_ne b (natRepr_digits _ b hb)).1
  -- the separator scan
  have hterm : findSubIdx [13, 10, 13, 10] (13 :: 10 :: 13 :: 10 :: body) = some 0 :=
    findSubIdx_of_leading_sep _ _ (by simp) (by simp [List.isPrefixOf])
  have hCLskip : findSubIdx [13, 10, 13, 10] (CL ++ 13 :: 10 :: 13 :: 10 :: body) =
      some (0 + CL.length) := by
    rw [findSubIdx_skip 13 [10, 13, 10] CL _ hCLne13, hterm]
    rfl
  have hjunc2 : findSubIdx [13, 10, 13, 10] (13 :: 10 :: (CL ++ 13 :: 10 :: 13 :: 10 :: body)) =
      some (0 + CL.length + 2) := by
    have hcons : CL ++ 13 :: 10 :: 13 :: 10 :: body =
        67 :: (ascii "ontent-Length: " ++ natRepr (pyEncode s).length ++ 13 :: 10 :: 13 :: 10 :: body) := by
      rw [hCLdef]
      rfl
    rw [hcons, findSubIdx_sep4_junction 67 _ (by norm_num), ← hcons, hCLskip]
    rfl
  have hCTskip : findSubIdx [13, 10, 13, 10]
      (CT ++ 13 :: 10 :: (CL ++ 13 :: 10 :: 13 :: 10 :: body)) =
      some (0 + CL.length + 2 + CT.length) := by
    rw [findSubIdx_skip 13 [10, 13, 10] CT _ (by rw [hCTdef]; decide), hjunc2]
    rfl
  have hjunc1 : findSubIdx [13, 10, 13, 10]
      (13 :: 10 :: (CT ++ 13 :: 10 :: (CL ++ 13 :: 10 :: 13 :: 10 :: body))) =
      some (0 + CL.length + 2 + CT.length + 2) := by
    have hcons : CT ++ 13 :: 10 :: (CL ++ 13 :: 10 :: 13 :: 10 :: body) =
        67 :: (ascii "ontent-Type: text/html" ++ 13 :: 10 :: (CL ++ 13 :: 10 :: 13 :: 10 :: body)) := by
      rw [hCTdef]
      rfl
    rw [hcons, findSubIdx_sep4_junction 67 _ (by norm_num), ← hcons, hCTskip]
    rfl
  have hfind : findSubIdx [13, 10, 13, 10]
      (P1 ++ 13 :: 10 :: (CT ++ 13 :: 10 :: (CL ++ 13 :: 10 :: 13 :: 10 :: body))) =
      some (0 + CL.length + 2 + CT.length + 2 + P1.length) := by
    rw [findSubIdx_skip 13 [10, 13, 10] P1 _ hP1ne13, hjunc1]
    rfl
  unfold clMatchesBody
  rw [show (ascii "\r\n\r\n") = [13, 10, 13, 10] from rfl, hfind]
  simp only []
  have hsplit : P1 ++ 13 :: 10 :: (CT ++ 13 :: 10 :: (CL ++ 13 :: 10 :: 13 :: 10 :: body)) =
      (P1 ++ [13, 10] ++ CT ++ [13, 10] ++ CL) ++ 13 :: 10 :: 13 :: 10 :: body := by
    simp [List.append_assoc]
  have hlen : (P1 ++ [13, 10] ++ CT ++ [13, 10] ++ CL).length =
      0 + CL.length + 2 + CT.length + 2 + P1.length := by
    simp [List.length_append]
    omega
  have htake : (P1 ++ 13 :: 10 :: (CT ++ 13 :: 10 :: (CL ++ 13 :: 10 :: 13 :: 10 :: body))).take
      (0 + CL.length + 2 + CT.length + 2 + P1.length) =
      P1 ++ [13, 10] ++ CT ++ [13, 10] ++ CL := by
    rw [hsplit]
    exact List.take_left' hlen
  rw [htake]
  -- the header block splits into the three lines
  have hlines : splitCRLF (P1 ++ [13, 10] ++ CT ++ [13, 10] ++ CL) = [P1, CT, CL] := by
    have hshape : P1 ++ [13, 10] ++ CT ++ [13, 10] ++ CL =
        P1 ++ 13 :: 10 :: (CT ++ 13 :: 10 :: CL) := by
      simp [List.append_assoc]
    rw [hshape]
    unfold splitCRLF
    rw [splitCRLFAux_no13_crlf P1 _ hP1ne13 [],
      splitCRLFAux_no13_crlf CT _ (by rw [hCTdef]; decide) [],
      splitCRLFAux_no13_end CL hCLne13 []]
    simp
  have hP1pre : (ascii "Content-Length: ").isPrefixOf P1 = false := by
    have h72 : P1 = 72 :: (pyEncode "TTP/1.1 " ++ natRepr code ++ (pyEncode " " ++ pyEncode text)) := by
      rw [hP1def]
      rfl
    rw [h72, show (ascii "Content-Length: ") = 67 :: ascii "ontent-Length: " from rfl]
    exact isPrefixOf_cons_of_ne 67 72 _ _ (by norm_num)
  have hCTpre : (ascii "Content-Length: ").isPrefixOf CT = false := by
    rw [hCTdef]
    decide
  have hCLpre2 : (ascii "Content-Length: ").isPrefixOf CL = true := by
    rw [hCLdef]
    exact List.isPrefixOf_iff_prefix.mpr (List.prefix_append _ _)
  have hparse : parseCLValue (P1 ++ [13, 10] ++ CT ++ [13, 10] ++ CL) =
      some (pyEncode s).length := by
    unfold parseCLValue
    rw [hlines]
    rw [List.findSome?_cons]
    rw [hP1pre]
    simp only [Bool.false_eq_true, if_false]
    rw [List.findSome?_cons]
    rw [hCTpre]
    simp only [Bool.false_eq_true, if_false]
    rw [List.findSome?_cons]
    rw [hCLpre2]
    simp only [if_true]
    rw [hCLdef, List.drop_left' (by rfl), digitsParse_natRepr]
  rw [hparse]
  simp only []
  rw [decide_eq_true_eq]
  have hlen2 : (P1 ++ 13 :: 10 :: (CT ++ 13 :: 10 :: (CL ++ 13 :: 10 :: 13 :: 10 :: body))).length =
      0 + CL.length + 2 + CT.length + 2 + P1.length + 4 + body.length := by
    simp [List.length_append]
    omega
  rw [hlen2, hbodydef]
  omega

/-- Claim C7, witness for the amended theorem: a concrete rendered response
passes the wire-level Content-Length check. -/
theorem c7_amended_witness :
    clMatchesBody ((response ⟨[], false⟩ 404 "Not Found" [("Content-Type", "text/html")]
      (.pstr "<h1>Not found</h1>")).1.wire) = true :=
  c7_amended 404 "Not Found" "<h1>Not found</h1>" (by decide)


/-- Partial evaluation of the start-line checks for the concrete line
`POST /big HTTP/1.1`: version, method and target all pass and the router is
consulted for `/big`. -/
theorem afterStartLine_postbig (w : Wr) (hdrs : List Nat)
    (routes : List (RoutePattern × Handler)) (special : List (Int × Handler)) :
    afterStartLine w (ascii "POST /big HTTP/1.1") hdrs routes special =
      match router routes (ascii "/big") with
      | none => singleLineResult w 404 "Not Found" hdrs
      | some rf => headerSection w (ascii "POST") rf hdrs special := by
  rfl

/-- Parsing the field line `Transfer-Encoding: <v>` stores it lowercased in
the header dict; nothing rejects it. -/
theorem c1_parse_te (v : List Nat) (hv : ∀ b ∈ v, b ≠ 13 ∧ b ≠ 10) (hvne : v ≠ [])
    (hvlast : ∀ b, v.getLast? = some b → isPySpace b = false) :
    parseHeaderLines [ascii "Transfer-Encoding: " ++ v, [], []]
        [(ascii "host", (ascii "Host", ascii "x"))] =
      .ok [(ascii "host", (ascii "Host", ascii "x")),
           (ascii "transfer-encoding", (ascii "Transfer-Encoding", pyStrip (32 :: v)))] := by
  have hne : ascii "Transfer-Encoding: " ++ v ≠ [] := by
    rw [show ascii "Transfer-Encoding: " ++ v =
      84 :: (ascii "ransfer-Encoding: " ++ v) from rfl]
    simp
  have hstrip : pyStrip (ascii "Transfer-Encoding: " ++ v) = ascii "Transfer-Encoding: " ++ v := by
    refine pyStrip_no_strip _ ?_ ?_
    · intro b hb
      rw [show ascii "Transfer-Encoding: " ++ v =
        84 :: (ascii "ransfer-Encoding: " ++ v) from rfl] at hb
      simp at hb
      subst hb
      decide
    · intro b hb
      rw [List.getLast?_append_of_ne_nil _ hvne] at hb
      exact hvlast b hb
  have hshape : ascii "Transfer-Encoding: " ++ v =
      ascii "Transfer-Encoding" ++ (58 :: 32 :: v) := by
    rw [show (ascii "Transfer-Encoding: ") =
      ascii "Transfer-Encoding" ++ [58, 32] from rfl]
    simp
  have hmatch : headerLineMatch (ascii "Transfer-Encoding: " ++ v) =
      some (ascii "Transfer-Encoding", 32 :: v) := by
    unfold headerLineMatch
    rw [hshape, takeWhile_append_all _ _ (by decide), dropWhile_append_all _ _ (by decide)]
    rw [List.takeWhile_cons, List.dropWhile_cons]
    simp only [show isTchar 58 = false from rfl]
    simp only [Bool.false_eq_true, if_false, List.append_nil]
    rw [show (ascii "Transfer-Encoding").isEmpty = false from rfl]
    simp only [Bool.false_eq_true, if_false]
    rw [List.takeWhile_cons]
    simp only [show (decide ((32 : Nat) ≠ 10)) = true from rfl, if_true]
    rw [takeWhile_all_self v (fun b hb => by simp [(hv b hb).2])]
  unfold parseHeaderLines
  rw [if_neg hne, hstrip, hmatch]
  simp only []
  rw [show dictHasKey [(ascii "host", (ascii "Host", ascii "x"))]
    (ascii "Transfer-Encoding") = false from by decide]
  simp only [Bool.false_eq_true, if_false]
  rw [show bytesLower (ascii "Transfer-Encoding") = ascii "transfer-encoding" from by decide]
  rw [show dictSet [(ascii "host", (ascii "Host", ascii "x"))] (ascii "transfer-encoding")
      (ascii "Transfer-Encoding", pyStrip (32 :: v)) =
    [(ascii "host", (ascii "Host", ascii "x")),
     (ascii "transfer-encoding", (ascii "Transfer-Encoding", pyStrip (32 :: v)))] from by
    simp [dictSet]
    decide]
  rfl

/-- Claim C1, amended: the server ignores the transfer-encoding header
entirely.  For every route table that routes `/big`, every special-route
table, every transfer-encoding value `v` (no CR/LF, non-empty, not ending in
whitespace, within the line limit) and every pending body, the request is
answered `411 Length Required`, the writer is closed, and not one byte of the
chunked body is read. -/
theorem c1_amended (routes : List (RoutePattern × Handler)) (special : List (Int × Handler))
    (rf : Except Unit PyVal) (v body : List Nat)
    (hroute : router routes (ascii "/big") = some rf)
    (hv : ∀ b ∈ v, b ≠ 13 ∧ b ≠ 10) (hvne : v ≠ [])
    (hvlast : ∀ b, v.getLast? = some b → isPySpace b = false)
    (hvlen : 28 + v.length ≤ STREAM_LIMIT) :
    request_handler
        (ascii "POST /big HTTP/1.1" ++ 13 :: 10 :: (ascii "Host: x" ++ 13 :: 10 ::
          (ascii "Transfer-Encoding: " ++ v ++ 13 :: 10 :: 13 :: 10 :: body)))
        routes special =
      ⟨pyEncode "HTTP/1.1 411 Length Required\r\n\r\n", true, none, body⟩ := by
  set H := ascii "Host: x" ++ 13 :: 10 ::
    (ascii "Transfer-Encoding: " ++ v ++ 13 :: 10 :: 13 :: 10 :: body) with hHdef
  -- phase 1: the start line read
  have hfind1 : findSubIdx [13, 10] (ascii "POST /big HTTP/1.1" ++ 13 :: 10 :: H) =
      some 18 := by
    rw [findSubIdx_skip 13 [10] _ _ (by decide),
      findSubIdx_of_leading_sep _ _ (by simp) (by simp [List.isPrefixOf])]
    rfl
  have hread1 : readuntilL (ascii "\r\n") (ascii "POST /big HTTP/1.1" ++ 13 :: 10 :: H) =
      some (ascii "POST /big HTTP/1.1" ++ [13, 10], H) := by
    unfold readuntilL
    rw [show (ascii "\r\n") = [13, 10] from rfl, hfind1]
    simp only [show (18 ≤ STREAM_LIMIT) = True from by simp [STREAM_LIMIT], if_true]
    rw [show ascii "POST /big HTTP/1.1" ++ 13 :: 10 :: H =
      (ascii "POST /big HTTP/1.1" ++ [13, 10]) ++ H from by simp]
    rw [List.take_left' (by decide), List.drop_left' (by decide)]
  have hstep1 : request_handler (ascii "POST /big HTTP/1.1" ++ 13 :: 10 :: H) routes special =
      afterStartLine ⟨[], false⟩ (ascii "POST /big HTTP/1.1") H routes special := by
    unfold request_handler
    rw [hread1]
    show afterStartLine ⟨[], false⟩ (List.take ((ascii "POST /big HTTP/1.1" ++ [13, 10]).length - 2)
      (ascii "POST /big HTTP/1.1" ++ [13, 10])) H routes special = _
    have ht : List.take ((ascii "POST /big HTTP/1.1" ++ [13, 10]).length - 2)
        (ascii "POST /big HTTP/1.1" ++ [13, 10]) = ascii "POST /big HTTP/1.1" := by decide
    rw [ht]
  rw [hstep1, afterStartLine_postbig, hroute]
  simp only []
  -- phase 2: the header block read
  have hfind2 : findSubIdx [13, 10, 13, 10] H = some (v.length + 28) := by
    rw [hHdef]
    rw [findSubIdx_skip 13 [10, 13, 10] _ _ (by decide)]
    have hTE : ascii "Transfer-Encoding: " ++ v ++ 13 :: 10 :: 13 :: 10 :: body =
        84 :: (ascii "ransfer-Encoding: " ++ v ++ 13 :: 10 :: 13 :: 10 :: body) := rfl
    rw [hTE, findSubIdx_sep4_junction 84 _ (by norm_num), ← hTE]
    rw [findSubIdx_skip 13 [10, 13, 10] _ _ ?side]
    case side =>
      intro b hb
      simp only [List.mem_append] at hb
      rcases hb with hb | hb
      · have hc : ∀ b ∈ ascii "Transfer-Encoding: ", b ≠ 13 := by decide
        exact hc b hb
      · exact (hv b hb).1
    rw [findSubIdx_of_leading_sep _ _ (by simp) (by simp [List.isPrefixOf])]
    simp [List.length_append, (show (ascii "Host: x").length = 7 from rfl),
      (show (ascii "Transfer-Encoding: ").length = 19 from rfl)]
    omega
  have hread2 : readuntilL (ascii "\r\n\r\n") H =
      some ((ascii "Host: x" ++ [13, 10] ++ ascii "Transfer-Encoding: " ++ v ++ [13, 10, 13, 10]),
        body) := by
    unfold readuntilL
    rw [show (ascii "\r\n\r\n") = [13, 10, 13, 10] from rfl, hfind2]
    simp only []
    rw [if_pos (show v.length + 28 ≤ STREAM_LIMIT by omega)]
    rw [show H = (ascii "Host: x" ++ [13, 10] ++ ascii "Transfer-Encoding: " ++ v ++
      [13, 10, 13, 10]) ++ body from by rw [hHdef]; simp]
    rw [List.take_left' (by
        simp [List.length_append, (show (ascii "Host: x").length = 7 from rfl),
          (show (ascii "Transfer-Encoding: ").length = 19 from rfl)]
        omega),
      List.drop_left' (by
        simp [List.length_append, (show (ascii "Host: x").length = 7 from rfl),
          (show (ascii "Transfer-Encoding: ").length = 19 from rfl)]
        omega)]
  unfold headerSection
  rw [hread2]
  simp only []
  -- phase 3: split into lines and parse
  have hsplit : splitCRLF (ascii "Host: x" ++ [13, 10] ++ ascii "Transfer-Encoding: " ++ v ++
      [13, 10, 13, 10]) = [ascii "Host: x", ascii "Transfer-Encoding: " ++ v, [], []] := by
    rw [show ascii "Host: x" ++ [13, 10] ++ ascii "Transfer-Encoding: " ++ v ++ [13, 10, 13, 10] =
      ascii "Host: x" ++ 13 :: 10 :: ((ascii "Transfer-Encoding: " ++ v) ++ 13 :: 10 ::
        (13 :: 10 :: [])) from by simp]
    unfold splitCRLF
    rw [splitCRLFAux_no13_crlf _ _ (by decide) []]
    rw [splitCRLFAux_no13_crlf _ _ ?side2 []]
    case side2 =>
      intro b hb
      simp only [List.mem_append] at hb
      rcases hb with hb | hb
      · have hc : ∀ b ∈ ascii "Transfer-Encoding: ", b ≠ 13 := by decide
        exact hc b hb
      · exact (hv b hb).1
    rfl
  rw [hsplit]
  have hstepA : parseHeaderLines [ascii "Host: x", ascii "Transfer-Encoding: " ++ v, [], []] [] =
      parseHeaderLines [ascii "Transfer-Encoding: " ++ v, [], []]
        [(ascii "host", (ascii "Host", ascii "x"))] := rfl
  rw [hstepA, c1_parse_te v hv hvne hvlast]
  simp only []
  -- phase 4: the framing decision
  have hcl : dictGet [(ascii "host", (ascii "Host", ascii "x")),
      (ascii "transfer-encoding", (ascii "Transfer-Encoding", pyStrip (32 :: v)))]
      (ascii "content-length") = none := by
    simp +decide [dictGet, List.find?]
  unfold contentLengthSection
  rw [hcl]
  simp only []
  rw [if_pos (show (!HTTP_METHOD_SAFE.contains (ascii "POST")) = true from by decide)]
  rfl

/-- Claim C1, witness for the amended theorem: the spec's chunked scenario
(d) itself, with `v = chunked`, gets the 411 with the chunk bytes unread. -/
theorem c1_amended_witness :
    request_handler
        (ascii "POST /big HTTP/1.1" ++ 13 :: 10 :: (ascii "Host: x" ++ 13 :: 10 ::
          (ascii "Transfer-Encoding: " ++ ascii "chunked" ++ 13 :: 10 :: 13 :: 10 ::
            ascii "5\r\nhello\r\n0\r\n\r\n")))
        bigRoutes [] =
      ⟨pyEncode "HTTP/1.1 411 Length Required\r\n\r\n", true, none,
       ascii "5\r\nhello\r\n0\r\n\r\n"⟩ :=
  c1_amended bigRoutes [] (.ok (.pstr "ok")) (ascii "chunked") (ascii "5\r\nhello\r\n0\r\n\r\n")
    (by decide) (by decide) (by decide) (by decide) (by decide)

end Server
